import Mathlib

/-!
Shallow embedding of the Sipzooppp point-of-sale Streamlit app
(src/Lemonade.py) for checking its natural-language specification.

Modelling conventions:
* Money is modelled in integer cents.  Every price in the catalog is a
  multiple of 25 cents and every quantity is at most 8, so every amount
  the program ever computes is a whole number of cents that is exactly
  representable as a binary floating point number; Python float
  arithmetic on these values is exact and agrees with integer cent
  arithmetic, and the "%.2f" formatting of such an amount prints its
  exact two-decimal expansion.  A dollar literal of the spec such as
  8.00 corresponds to 800 cents.
* Streamlit session state (st.session_state) is modelled by the
  SessionState structure; the persisted CSV file is modelled by
  FileState.
* The outcome of the checkout callback is reified as CheckoutOutcome:
  each st.error message in the validation block of place_order_and_rerun
  corresponds to one error constructor, a propagated exception from
  df.to_csv corresponds to persistenceError, and reaching st.rerun
  corresponds to placed.
-/

namespace Lemonade

/-- Catalog entry of PRODUCTS (src/Lemonade.py lines 17-26): a product
name with its display emoji and its price in cents. -/
structure Product where
  name : String
  emoji : String
  price : Nat
deriving DecidableEq

/-- Product catalog PRODUCTS from src/Lemonade.py lines 17-26, in source
order (Python dicts iterate in insertion order); prices in cents. -/
def PRODUCTS : List Product :=
  [ { name := "Classic Lemonade", emoji := "🍋", price := 400 },
    { name := "Strawberry Mint", emoji := "🍓🌿", price := 550 },
    { name := "Iced Tea Fusion", emoji := "🧊☕", price := 450 },
    { name := "Blue Raspberry Zest", emoji := "🫐", price := 525 },
    { name := "Sparkling Limeade", emoji := "✨", price := 500 },
    { name := "Ginger Honey Detox", emoji := "🍯", price := 575 },
    { name := "Watermelon Basil Cooler", emoji := "🍉🌱", price := 600 },
    { name := "Tropical Mango Blend", emoji := "🥭🍍", price := 625 } ]

/-- MAX_QTY from src/Lemonade.py line 39. -/
def MAX_QTY : Nat := 8

/-- Price lookup, modelling PRODUCTS[name]["price"]; the program only
looks up names that are keys of the cart dictionary, which are exactly
the catalog names. -/
def priceOf (name : String) : Nat :=
  match PRODUCTS.find? fun p => p.name == name with
  | some p => p.price
  | none => 0

/-- One entry of the cart_items list built in src/Lemonade.py lines
197-205: a dict with keys Item, Quantity, Price, Line Total, where the
two money fields are "%.2f" dollar strings. -/
structure ItemEntry where
  Item : String
  Quantity : Nat
  Price : String
  LineTotal : String
deriving DecidableEq

/-- Dollar formatting f"$\x7bx:.2f\x7d" used in src/Lemonade.py lines
203-204, applied to an amount given in cents. -/
def fmtUSD (c : Nat) : String :=
  "$" ++ toString (c / 100) ++ "." ++
    (if c % 100 < 10 then "0" else "") ++ toString (c % 100)

/-- One row of the session cart dictionary st.session_state.cart:
product name paired with requested quantity.  The dictionary always
holds exactly the catalog names, in catalog order. -/
abbrev CartRow := String × Nat

/-- The cart_items list built by the loop of src/Lemonade.py lines
197-205: one ItemEntry per cart row with positive quantity, in cart
order. -/
def cart_items (cart : List CartRow) : List ItemEntry :=
  cart.filterMap fun nq =>
    if nq.2 > 0 then
      some { Item := nq.1, Quantity := nq.2,
             Price := fmtUSD (priceOf nq.1),
             LineTotal := fmtUSD (nq.2 * priceOf nq.1) }
    else none

/-- The cart_total accumulated by the same loop: the sum in cents of
quantity * price over the rows with positive quantity. -/
def cart_total (cart : List CartRow) : Nat :=
  (cart.map fun nq => if nq.2 > 0 then nq.2 * priceOf nq.1 else 0).sum

/-- One order record, i.e. one row of st.session_state.order_history as
created in src/Lemonade.py lines 122-128; total_price in cents. -/
structure OrderRecord where
  timestamp : String
  customer_name : String
  mobile_number : String
  items_ordered : List ItemEntry
  total_price : Nat
deriving DecidableEq

/-- One serialized CSV row as written by DataFrame.to_csv: the Items
Ordered cell holds the Python str() of the list of item dicts.  The
other cells round-trip through the CSV layer unchanged (to_csv quotes
and read_csv unquotes them). -/
structure Row where
  timestamp : String
  customer_name : String
  mobile_number : String
  items_str : String
  total_price : Nat
deriving DecidableEq

/-- Python repr of one item dict, as embedded in the CSV by to_csv:
keys in insertion order, strings in single quotes.  Faithful for the
strings this program stores (catalog names and dollar strings contain
no quote, backslash or newline characters). -/
def itemRepr (e : ItemEntry) : String :=
  "\x7b\x27Item\x27: \x27" ++ e.Item ++
  "\x27, \x27Quantity\x27: " ++ toString e.Quantity ++
  ", \x27Price\x27: \x27" ++ e.Price ++
  "\x27, \x27Line Total\x27: \x27" ++ e.LineTotal ++ "\x27\x7d"

/-- Python str() of the list of item dicts. -/
def itemsRepr (l : List ItemEntry) : String :=
  "[" ++ String.intercalate ", " (l.map itemRepr) ++ "]"

/-- Model of pandas.eval applied to an Items Ordered cell, as the
read_csv converter of src/Lemonade.py line 54 does.  pandas.eval parses
the string with its own expression visitor, which supports list
literals but has no visitor for dict literals: evaluating any
expression containing a dict literal raises NotImplementedError (Dict
nodes are not implemented).  So a cell containing a left brace fails,
the empty list parses, and every cell this program writes is one of the
two. -/
def pd_eval_items (s : String) : Option (List ItemEntry) :=
  if s.data.contains (Char.ofNat 123) then none
  else if s = "[]" then some [] else none

/-- State of the persisted CSV file DATA_FILE. -/
inductive FileState
  /-- The file does not exist (os.path.exists is False). -/
  | missing
  /-- The file exists but has size 0 (os.path.getsize is 0). -/
  | emptyFile
  /-- The file exists, is non-empty, and is readable as a CSV with the
  expected header and these rows (possibly none). -/
  | rows (rs : List Row)
  /-- The file exists, is non-empty, and pd.read_csv itself fails on it. -/
  | garbage
deriving DecidableEq

/-- Result of load_orders: the order history DataFrame it returns,
together with whether it surfaced an st.error warning. -/
structure LoadResult where
  log : List OrderRecord
  warned : Bool
deriving DecidableEq

/-- Conversion of one CSV row back to an order record: the Items
Ordered cell goes through the pd.eval converter; its failure is an
exception escaping pd.read_csv. -/
def parseRow (r : Row) : Option OrderRecord :=
  (pd_eval_items r.items_str).map fun items =>
    { timestamp := r.timestamp, customer_name := r.customer_name,
      mobile_number := r.mobile_number, items_ordered := items,
      total_price := r.total_price }

/-- load_orders from src/Lemonade.py lines 43-61.  A missing or
zero-byte file yields an empty DataFrame with no message; a non-empty
file is read with pd.read_csv and the pd.eval converter, and any
exception is caught, an st.error is shown, and an empty DataFrame is
returned. -/
def load_orders : FileState → LoadResult
  | FileState.missing => { log := [], warned := false }
  | FileState.emptyFile => { log := [], warned := false }
  | FileState.garbage => { log := [], warned := true }
  | FileState.rows rs =>
    match rs.mapM parseRow with
    | some recs => { log := recs, warned := false }
    | none => { log := [], warned := true }

/-- Serialization of one order record into its CSV row, as df.to_csv
does at src/Lemonade.py line 65. -/
def serializeRow (r : OrderRecord) : Row :=
  { timestamp := r.timestamp, customer_name := r.customer_name,
    mobile_number := r.mobile_number,
    items_str := itemsRepr r.items_ordered, total_price := r.total_price }

/-- save_orders from src/Lemonade.py lines 63-65: overwrites the file
with the full history. -/
def save_orders (history : List OrderRecord) : FileState :=
  FileState.rows (history.map serializeRow)

/-- Streamlit session state: the order history, the cart dictionary,
the two customer text-input widget values, and the per-product
number-input widget values. -/
structure SessionState where
  order_history : List OrderRecord
  cart : List CartRow
  customer_name_input : String
  mobile_number_input : String
  inputs : List CartRow
deriving DecidableEq

/-- Session state together with the persisted file. -/
structure World where
  session : SessionState
  file : FileState
deriving DecidableEq

/-- clear_cart from src/Lemonade.py lines 87-101: resets every cart
quantity to 0, blanks both customer text inputs, and resets every
number-input widget value to 0. -/
def clear_cart (s : SessionState) : SessionState :=
  { s with
    cart := PRODUCTS.map fun p => (p.name, 0),
    customer_name_input := "",
    mobile_number_input := "",
    inputs := PRODUCTS.map fun p => (p.name, 0) }

/-- Fragment of the character class accepted by Python str.isdigit:
a character passes when its Unicode Numeric_Type is Digit or Decimal.
Besides the ASCII digits this includes, among many others, the
superscript digits (code points 185, 178, 179) and the Arabic-Indic
digits (code points 1632-1641), which are the non-ASCII
representatives used in this development. -/
def pyCharIsDigit (c : Char) : Bool :=
  c.isDigit || c.toNat == 185 || c.toNat == 178 || c.toNat == 179 ||
    (1632 ≤ c.toNat && c.toNat ≤ 1641)

/-- Python str.isdigit: true when the string is non-empty and every
character is a digit character. -/
def pyStrIsDigit (s : String) : Bool :=
  !(s == "") && s.data.all pyCharIsDigit

/-- Observable outcome of one call of the checkout callback. -/
inductive CheckoutOutcome
  /-- st.error "Please enter the Customer Name to place the order." -/
  | missingName
  /-- st.error "Please enter a valid 10-digit Mobile Number." -/
  | invalidMobile
  /-- st.error "Your cart is empty! ..." -/
  | emptyCart
  /-- df.to_csv raised; the exception escapes the callback. -/
  | persistenceError
  /-- The order was recorded and the app reset and rerun. -/
  | placed
deriving DecidableEq

/-- place_order_and_rerun from src/Lemonade.py lines 104-140.  saveOk
tells whether the df.to_csv call in save_orders succeeds; when it
fails, the exception propagates out of the callback after the
order_history assignment of line 131 and before clear_cart, and the
on-disk content of the interrupted write is left unmodelled (the file
component keeps its old value). -/
def place_order_and_rerun (w : World) (cart_details : List ItemEntry)
    (total_price : Nat) (name mobile : String) (now : String)
    (saveOk : Bool) : World × CheckoutOutcome :=
  if name = "" then (w, CheckoutOutcome.missingName)
  else if mobile = "" ∨ pyStrIsDigit mobile = false ∨ mobile.length ≠ 10 then
    (w, CheckoutOutcome.invalidMobile)
  else if total_price ≤ 0 then (w, CheckoutOutcome.emptyCart)
  else
    let new_order : OrderRecord :=
      { timestamp := now, customer_name := name, mobile_number := mobile,
        items_ordered := cart_details, total_price := total_price }
    let history := w.session.order_history ++ [new_order]
    let s1 := { w.session with order_history := history }
    if saveOk then
      ({ session := clear_cart s1, file := save_orders history },
        CheckoutOutcome.placed)
    else
      ({ session := s1, file := w.file }, CheckoutOutcome.persistenceError)

/-- One press of the checkout button (src/Lemonade.py lines 227-232):
place_order_and_rerun applied to the cart_items and cart_total computed
from the session cart during the render, and to the current values of
the two customer text inputs. -/
def checkout (w : World) (now : String) (saveOk : Bool) :
    World × CheckoutOutcome :=
  place_order_and_rerun w (cart_items w.session.cart)
    (cart_total w.session.cart) w.session.customer_name_input
    w.session.mobile_number_input now saveOk

/-- What the Sales Analytics tab renders. -/
inductive AnalyticsView
  /-- st.info "Place orders to unlock sales analytics!" -/
  | info
  /-- The three metrics: Total Transactions, Gross Revenue (cents),
  Total Items Sold. -/
  | metrics (total_orders : Nat) (gross_revenue : Nat) (total_items : Nat)
deriving DecidableEq

/-- Total items sold as computed at src/Lemonade.py lines 288-290: the
sum of the Quantity field over the flattened item lists.  In this typed
model every item entry carries a Quantity, so the except branch of the
source is unreachable. -/
def total_items_sold (log : List OrderRecord) : Nat :=
  (((log.map OrderRecord.items_ordered).flatten).map ItemEntry.Quantity).sum

/-- The Sales Analytics tab, src/Lemonade.py lines 277-301: on an empty
history it renders only an st.info prompt; otherwise it renders the
record count, the sum of the Total Price column, and the flattened
quantity sum. -/
def sales_analytics (log : List OrderRecord) : AnalyticsView :=
  if log.isEmpty then AnalyticsView.info
  else
    AnalyticsView.metrics log.length
      (log.map OrderRecord.total_price).sum (total_items_sold log)

/-- Whitespace-only test used to state the trimming clause of the
specification: a string consisting only of whitespace is exactly a
string that is empty after trimming surrounding whitespace. -/
def isWhitespaceOnly (s : String) : Bool := s.data.all Char.isWhitespace

/-- Decimal-digit test used to state the specification clause that a
mobile number consist of the characters 0-9 only (Char.isDigit is the
ASCII test). -/
def isAsciiDigitString (s : String) : Bool := s.data.all Char.isDigit

/-- Cart dictionary with every quantity 0, as initialized at
src/Lemonade.py line 76. -/
def zeroCart : List CartRow := PRODUCTS.map fun p => (p.name, 0)

/-- Cart holding two Classic Lemonade and nothing else. -/
def twoLemonadeCart : List CartRow :=
  PRODUCTS.map fun p => (p.name, if p.name == "Classic Lemonade" then 2 else 0)

/-- Demo world: fresh session, two Classic Lemonade in the cart, valid
customer data entered. -/
def demoWorld : World :=
  { session :=
      { order_history := [], cart := twoLemonadeCart,
        customer_name_input := "Alice", mobile_number_input := "9876543210",
        inputs := twoLemonadeCart },
    file := FileState.missing }

/-- Demo world whose customer name is a single space character. -/
def spaceNameWorld : World :=
  { session :=
      { order_history := [], cart := twoLemonadeCart,
        customer_name_input := " ", mobile_number_input := "9876543210",
        inputs := twoLemonadeCart },
    file := FileState.missing }

/-- Demo world whose mobile number is ten superscript-two characters,
each of which Python str.isdigit accepts. -/
def superscriptMobileWorld : World :=
  { session :=
      { order_history := [], cart := twoLemonadeCart,
        customer_name_input := "Bob", mobile_number_input := "²²²²²²²²²²",
        inputs := twoLemonadeCart },
    file := FileState.missing }

/-- Demo world with a five-digit mobile number. -/
def shortMobileWorld : World :=
  { session :=
      { order_history := [], cart := twoLemonadeCart,
        customer_name_input := "Bob", mobile_number_input := "12345",
        inputs := twoLemonadeCart },
    file := FileState.missing }

/-- Demo world with valid customer data but an empty cart. -/
def emptyCartWorld : World :=
  { session :=
      { order_history := [], cart := zeroCart,
        customer_name_input := "Bob", mobile_number_input := "9876543210",
        inputs := zeroCart },
    file := FileState.missing }

/-- The order record produced by checking out demoWorld (800 cents is
the 8.00 dollar total). -/
def demoRecord : OrderRecord :=
  { timestamp := "2026-01-01 12:00:00", customer_name := "Alice",
    mobile_number := "9876543210",
    items_ordered :=
      [ { Item := "Classic Lemonade", Quantity := 2,
          Price := "$4.00", LineTotal := "$8.00" } ],
    total_price := 800 }

/-! Helper lemmas shared by the claim theorems. -/

/-- Python str.isdigit is false on the empty string. -/
theorem pyStrIsDigit_empty : pyStrIsDigit "" = false := rfl

/-- The flattened quantity sum of the analytics computation equals the
record-by-record nested quantity sum. -/
theorem total_items_sold_eq (log : List OrderRecord) :
    total_items_sold log =
      (log.map fun r => (r.items_ordered.map fun i => i.Quantity).sum).sum := by
  induction log with
  | nil => rfl
  | cons a l ih =>
    simp only [total_items_sold, List.map_cons, List.flatten_cons,
      List.map_append, List.sum_append, List.sum_cons] at ih ⊢
    rw [ih]

/-! Claim theorems. -/

/-- C1, counterexample: checking out demoWorld with a failing
persistence write ends in persistenceError, yet the in-memory order log
is not rolled back to its pre-append state — it differs from the log
before the call (the appended record stays). -/
theorem C1_rollback_counterexample :
    (checkout demoWorld "t" false).2 = CheckoutOutcome.persistenceError ∧
    (checkout demoWorld "t" false).1.session.order_history ≠
      demoWorld.session.order_history := by decide

/-- C1, amended: when the persistence write fails, the checkout
callback stops before clear_cart, so the cart and both customer inputs
are unchanged and a retry is possible; but the in-memory order log is
not rolled back: it equals the pre-call log with the new record
appended. -/
theorem C1_persistence_failure_keeps_cart_and_appended_log (w : World)
    (now : String)
    (h : (checkout w now false).2 = CheckoutOutcome.persistenceError) :
    (checkout w now false).1.session.cart = w.session.cart ∧
    (checkout w now false).1.session.customer_name_input =
      w.session.customer_name_input ∧
    (checkout w now false).1.session.mobile_number_input =
      w.session.mobile_number_input ∧
    (checkout w now false).1.session.order_history =
      w.session.order_history ++
        [{ timestamp := now,
           customer_name := w.session.customer_name_input,
           mobile_number := w.session.mobile_number_input,
           items_ordered := cart_items w.session.cart,
           total_price := cart_total w.session.cart }] := by
  simp only [checkout, place_order_and_rerun] at h ⊢
  split_ifs at h ⊢
  simp_all

/-- C1, witness for the amended theorem at demoWorld. -/
theorem C1_persistence_failure_witness :
    (checkout demoWorld "t" false).1.session.cart =
      demoWorld.session.cart :=
  (C1_persistence_failure_keeps_cart_and_appended_log demoWorld "t"
    (by decide)).1

/-- C2, counterexample: a customer name consisting of one space is
empty after trimming, yet checkout does not fail with MissingName — it
places the order. -/
theorem C2_whitespace_name_counterexample :
    spaceNameWorld.session.customer_name_input ≠ "" ∧
    isWhitespaceOnly spaceNameWorld.session.customer_name_input = true ∧
    (checkout spaceNameWorld "t" true).2 ≠ CheckoutOutcome.missingName ∧
    (checkout spaceNameWorld "t" true).2 = CheckoutOutcome.placed := by
  decide

/-- C2, amended: checkout fails with MissingName exactly when the
customer name is the empty string; no trimming is applied, so a
whitespace-only name passes the name check. -/
theorem C2_missing_name_iff_empty_string (w : World) (now : String)
    (ok : Bool) :
    (checkout w now ok).2 = CheckoutOutcome.missingName ↔
      w.session.customer_name_input = "" := by
  simp only [checkout, place_order_and_rerun]
  split_ifs <;> simp_all

/-- C3, counterexample: a mobile number of ten superscript-two
characters has 10 characters none of which is an ASCII decimal digit,
yet checkout does not fail with InvalidMobile — Python str.isdigit
accepts the superscript digits and the order is placed. -/
theorem C3_unicode_digit_counterexample :
    superscriptMobileWorld.session.mobile_number_input.length = 10 ∧
    isAsciiDigitString superscriptMobileWorld.session.mobile_number_input
      = false ∧
    (checkout superscriptMobileWorld "t" true).2 ≠
      CheckoutOutcome.invalidMobile ∧
    (checkout superscriptMobileWorld "t" true).2 =
      CheckoutOutcome.placed := by decide

/-- C3, amended: for a non-empty customer name, checkout fails with
InvalidMobile exactly when the mobile number does not satisfy Python
str.isdigit with length 10; str.isdigit accepts every Unicode digit
character, not only 0-9, and in particular "12345" and "12345abcde"
still fail with InvalidMobile. -/
theorem C3_invalid_mobile_iff_not_pydigit10 (w : World) (now : String)
    (ok : Bool) (hname : w.session.customer_name_input ≠ "") :
    (checkout w now ok).2 = CheckoutOutcome.invalidMobile ↔
      ¬(pyStrIsDigit w.session.mobile_number_input = true ∧
        w.session.mobile_number_input.length = 10) := by
  simp only [checkout, place_order_and_rerun]
  split_ifs with h1 h2 <;> simp_all
  rcases h2 with h | h | h <;> simp_all [pyStrIsDigit_empty]

/-- C3, witness for the amended theorem: mobile "12345" is rejected
with InvalidMobile. -/
theorem C3_invalid_mobile_witness :
    (checkout shortMobileWorld "t" true).2 =
      CheckoutOutcome.invalidMobile :=
  (C3_invalid_mobile_iff_not_pydigit10 shortMobileWorld "t" true
    (by decide)).mpr (by decide)

/-- C4, confirmed: with a non-empty name and a mobile number passing
the digit-and-length check, checkout fails with EmptyCart when the
cart total is not positive; and every validation failure (MissingName,
InvalidMobile, EmptyCart) returns the state unchanged, so the cart
total before and after the failed call are equal. -/
theorem C4_empty_cart_and_validation_preserves_total (w : World)
    (now : String) (ok : Bool) :
    (w.session.customer_name_input ≠ "" →
      pyStrIsDigit w.session.mobile_number_input = true →
      w.session.mobile_number_input.length = 10 →
      cart_total w.session.cart ≤ 0 →
      (checkout w now ok).2 = CheckoutOutcome.emptyCart) ∧
    ((checkout w now ok).2 = CheckoutOutcome.missingName ∨
     (checkout w now ok).2 = CheckoutOutcome.invalidMobile ∨
     (checkout w now ok).2 = CheckoutOutcome.emptyCart →
      cart_total (checkout w now ok).1.session.cart =
        cart_total w.session.cart) := by
  simp only [checkout, place_order_and_rerun]
  constructor
  · intro hname hdig hlen htot
    split_ifs <;> simp_all
  · intro hfail
    split_ifs at hfail ⊢ <;> simp_all

/-- C4, witness: a valid customer with an empty cart gets EmptyCart and
the cart total is preserved. -/
theorem C4_empty_cart_witness :
    (checkout emptyCartWorld "t" true).2 = CheckoutOutcome.emptyCart ∧
    cart_total (checkout emptyCartWorld "t" true).1.session.cart =
      cart_total emptyCartWorld.session.cart := by
  have h := C4_empty_cart_and_validation_preserves_total emptyCartWorld
    "t" true
  have h1 := h.1 (by decide) (by decide) (by decide) (by decide)
  exact ⟨h1, h.2 (Or.inr (Or.inr h1))⟩

/-- C5, confirmed: checking out a valid customer with cart
(Classic Lemonade x 2) places the order, appends an OrderRecord with
total price 800 cents (8.00 dollars) to the order log, and leaves a
cart whose total is 0. -/
theorem C5_two_lemonades_checkout :
    (checkout demoWorld "2026-01-01 12:00:00" true).2 =
      CheckoutOutcome.placed ∧
    (checkout demoWorld "2026-01-01 12:00:00" true).1.session.order_history
      = demoWorld.session.order_history ++ [demoRecord] ∧
    demoRecord.total_price = 800 ∧
    cart_total
      (checkout demoWorld "2026-01-01 12:00:00" true).1.session.cart
      = 0 := by decide

/-- C6, confirmed: load_orders on a missing file returns the empty log
with no warning, and on an existing but unreadable file it surfaces a
warning and falls back to the empty log. -/
theorem C6_load_missing_and_corrupt :
    load_orders FileState.missing = { log := [], warned := false } ∧
    load_orders FileState.garbage = { log := [], warned := true } := by
  decide

/-- C7, code bug witnessed: one order saved by save_orders cannot be
loaded back — the Items Ordered cell is the str() of a list of dicts,
which contains a dict literal (a left-brace character), so the pd.eval
converter raises, load_orders catches the exception and returns the
empty log with a warning instead of reproducing the items list. -/
theorem C7_round_trip_fails :
    load_orders (save_orders [demoRecord]) = { log := [], warned := true } ∧
    (itemsRepr demoRecord.items_ordered).data.contains (Char.ofNat 123)
      = true := by decide

/-- C8, counterexample: on an empty order log the Sales Analytics tab
renders only the st.info prompt; it does not report the metrics
0, 0.0, 0. -/
theorem C8_empty_log_counterexample :
    sales_analytics [] = AnalyticsView.info ∧
    sales_analytics [] ≠ AnalyticsView.metrics 0 0 0 := by decide

/-- C8, amended: on every non-empty order log the Sales Analytics tab
reports the record count, the sum of total prices (in cents) and the
sum of quantities across all items of all records; on the empty log it
renders the info prompt instead of zero metrics. -/
theorem C8_analytics_formulas (log : List OrderRecord) :
    (log ≠ [] →
      sales_analytics log =
        AnalyticsView.metrics log.length
          (log.map fun r => r.total_price).sum
          ((log.map fun r => (r.items_ordered.map fun i => i.Quantity).sum).sum)) ∧
    sales_analytics [] = AnalyticsView.info := by
  refine ⟨fun h => ?_, rfl⟩
  unfold sales_analytics
  rw [if_neg (by simpa using h), total_items_sold_eq]

/-- C8, witness for the amended theorem at a one-record log. -/
theorem C8_analytics_witness :
    sales_analytics [demoRecord] = AnalyticsView.metrics 1 800 2 :=
  ((C8_analytics_formulas [demoRecord]).1 (by decide)).trans (by decide)

/-- C9, confirmed: load_orders treats an existing zero-byte file
exactly like a missing file — empty log, no warning. -/
theorem C9_zero_byte_file_like_missing :
    load_orders FileState.emptyFile = load_orders FileState.missing ∧
    load_orders FileState.emptyFile = { log := [], warned := false } := by
  decide

/-- C10, confirmed: clear_cart, and any checkout that ends in a placed
order, leave every cart quantity at 0 and both customer text inputs
blank. -/
theorem C10_clear_resets_customer_fields (s : SessionState) (w : World)
    (now : String) (ok : Bool) :
    ((clear_cart s).customer_name_input = "" ∧
     (clear_cart s).mobile_number_input = "" ∧
     ∀ nq ∈ (clear_cart s).cart, nq.2 = 0) ∧
    ((checkout w now ok).2 = CheckoutOutcome.placed →
      (checkout w now ok).1.session.customer_name_input = "" ∧
      (checkout w now ok).1.session.mobile_number_input = "" ∧
      ∀ nq ∈ (checkout w now ok).1.session.cart, nq.2 = 0) := by
  constructor
  · refine ⟨rfl, rfl, ?_⟩
    intro nq hnq
    simp only [clear_cart, List.mem_map] at hnq
    obtain ⟨p, -, rfl⟩ := hnq
    rfl
  · intro hp
    simp only [checkout, place_order_and_rerun] at hp ⊢
    split_ifs at hp ⊢
    simp_all [clear_cart, List.mem_map]

/-- C10, witness: after the successful demoWorld checkout both customer
inputs are blank. -/
theorem C10_clear_witness :
    (checkout demoWorld "t" true).1.session.customer_name_input = "" ∧
    (checkout demoWorld "t" true).1.session.mobile_number_input = "" := by
  have h := (C10_clear_resets_customer_fields demoWorld.session demoWorld
    "t" true).2 (by decide)
  exact ⟨h.1, h.2.1⟩

end Lemonade
